import Mathlib

/-!
Verification of the home-battery savings calculator's simulation core
(`src/script.js`): the per-interval dispatch engine `runSingleTimeStep`, the
simulation loop `runSimulation`, the aggregation pass `aggregateFinalResults`,
the battery-size sweep `runOptimizationAnalysis`, and the validation gate at
the top of `runFullSimulation`.

Modelling conventions:
* JavaScript numbers are modelled as exact rationals (`ℚ`).
* `Math.sqrt(params.roundtripEfficiency)` is irrational in general, so
  `efficiencySqrt` is threaded through as an explicit parameter everywhere the
  source threads the computed value; theorems that need the link to
  `roundtripEfficiency` take it as a hypothesis (for instance
  `efficiencySqrt ^ 2 = roundtripEfficiency` together with nonnegativity).
* `Date` values are modelled by a record of their UTC components; the source
  only ever reads the UTC month key (`toISOString().slice(0, 7)`), day of
  month (`getUTCDate`), hour (`getUTCHours`) and month (`getUTCMonth`).
* The monthly-accumulator object keyed by "YYYY-MM" strings is modelled as an
  association list keyed by the pair (year, month).
-/

namespace HomeBattery

/-- Duration of one data interval in hours (`HOURS_PER_INTERVAL` in the
source, 0.5 for half-hourly data). -/
def HOURS_PER_INTERVAL : ℚ := 1 / 2

/-- `INTERVALS_PER_DAY = 24 / HOURS_PER_INTERVAL` in the source. -/
def INTERVALS_PER_DAY : ℚ := 24 / HOURS_PER_INTERVAL

/-- `INTERVALS_PER_DAY` as a natural number (24 / 0.5 = 48), used where the
source indexes readings. -/
def intervalsPerDayCount : ℕ := 48

/-- `DAYS_IN_YEAR` in the source. -/
def DAYS_IN_YEAR : ℚ := 365

/-- `FLOAT_TOLERANCE` in the source: threshold below which charge/discharge
amounts are treated as noise. -/
def FLOAT_TOLERANCE : ℚ := 1 / 1000

/-- The control strategies of the source, one constructor per strategy
string (`self-consumption`, `export-maximiser`, `balanced-export-maximiser`,
`import-minimiser`). -/
inductive Strategy
  | selfConsumption
  | exportMaximiser
  | balancedExportMaximiser
  | importMinimiser
deriving DecidableEq, Repr

/-- The strategy strings used by the source UI and error messages. -/
def Strategy.sourceName : Strategy → String
  | .selfConsumption => "self-consumption"
  | .exportMaximiser => "export-maximiser"
  | .balancedExportMaximiser => "balanced-export-maximiser"
  | .importMinimiser => "import-minimiser"

/-- UTC components of a `Date`, covering exactly the accessors the simulation
core reads. -/
structure Timestamp where
  year : ℕ
  month : ℕ
  day : ℕ
  hour : ℕ
  minute : ℕ
deriving DecidableEq, Repr

/-- The month key `timestamp.toISOString().slice(0, 7)` ("YYYY-MM"), modelled
as the pair (UTC year, UTC month). -/
def monthKey (t : Timestamp) : ℕ × ℕ := (t.year, t.month)

/-- One row of the cleaned time series handed to the simulation core. -/
structure Reading where
  timestamp : Timestamp
  consumption : ℚ
  generation : ℚ
deriving DecidableEq, Repr

/-- The resolved simulation parameters collected by
`getSimulationParameters`. The hourly arrays are modelled as functions on the
UTC hour. -/
structure Params where
  batteryCapacity : ℚ
  usableCapacity : ℚ
  minSoc : ℚ
  maxSoc : ℚ
  maxChargeRate : ℚ
  maxDischargeRate : ℚ
  roundtripEfficiency : ℚ
  systemCost : ℚ
  strategy : Strategy
  mic : ℚ
  mec : ℚ
  importPrices : ℕ → ℚ
  exportPrices : ℕ → ℚ
  forceChargeHours : ℕ → Bool

/-- `isExportStrategy` in `runSingleTimeStep`. -/
abbrev isExportStrategy (p : Params) : Prop :=
  p.strategy = .exportMaximiser ∨ p.strategy = .balancedExportMaximiser

/-- `isImportMinimiser` in `runSingleTimeStep`. -/
abbrev isImportMinimiserStrategy (p : Params) : Prop :=
  p.strategy = .importMinimiser

/-- `isForceChargeHour` in `runSingleTimeStep`: a force-charge-aware strategy
is selected and the force-charge mask is set for this UTC hour. -/
abbrev isForceChargeHour (p : Params) (hour : ℕ) : Prop :=
  (isExportStrategy p ∨ isImportMinimiserStrategy p) ∧ p.forceChargeHours hour = true

/-- `isPreChargeHour` in `runSingleTimeStep`: export-style strategy, not
itself a force-charge hour, and one of the next four hours (wrapping at 24)
is force-charge flagged. -/
abbrev isPreChargeHour (p : Params) (hour : ℕ) : Prop :=
  isExportStrategy p ∧ ¬ isForceChargeHour p hour ∧
    (p.forceChargeHours ((hour + 1) % 24) = true ∨
     p.forceChargeHours ((hour + 2) % 24) = true ∨
     p.forceChargeHours ((hour + 3) % 24) = true ∨
     p.forceChargeHours ((hour + 4) % 24) = true)

/-- `isHeatingSeason` in `runSingleTimeStep`: UTC month is Jan, Feb, Nov or
Dec (`getUTCMonth` values 0, 1, 10, 11). -/
abbrev isHeatingSeason (month : ℕ) : Prop :=
  month = 0 ∨ month = 1 ∨ month = 10 ∨ month = 11

/-- The intermediate quantities of one `runSingleTimeStep` invocation, in the
order the source computes them. All are energies in kWh for the interval.
`dischargeApplied` is the home-side energy delivered in step 2 (0 when the
step is skipped or below tolerance), `remainingDemand` is the home demand
left after steps 1 and 2, `solarCharge` is the pre-efficiency solar charge of
step 4, `exportAfterSolar` is the grid export accumulated by step 4,
`dischargeToGrid` is the grid-side energy of the pre-emptive discharge 5a,
`forceChargeApplied` is the pre-efficiency grid charge of step 5b, and
`preClipExport` is the total export before the final MEC clipping. -/
structure StepParts where
  selfUse : ℚ
  dischargeApplied : ℚ
  remainingDemand : ℚ
  solarCharge : ℚ
  exportAfterSolar : ℚ
  dischargeToGrid : ℚ
  forceChargeApplied : ℚ
  preClipExport : ℚ

/-- The ordered decision sequence of `runSingleTimeStep` (src/script.js,
`runSingleTimeStep`), exposing the intermediate quantities. Each guarded
mutation `if (amount > FLOAT_TOLERANCE) { apply amount }` of the source is
rendered as the applied amount being `amount` when the guard holds and `0`
otherwise. Note that `availableEnergyInBattery` and `spaceInBattery` are
computed once from `currentSoC` at the top, exactly as in the source, even
though steps 2 and 4 may change the SoC before steps 5a and 5b reuse them. -/
def runStepParts (row : Reading) (currentSoC : ℚ) (params : Params)
    (minSoC_kWh maxSoC_kWh efficiencySqrt : ℚ) : StepParts :=
  let hour := row.timestamp.hour
  let availableEnergyInBattery := max 0 (currentSoC - minSoC_kWh)
  let spaceInBattery := max 0 (maxSoC_kWh - currentSoC)
  -- 1. Direct solar self-consumption
  let selfConsumptionFromSolar := min row.consumption row.generation
  let remainingDemand := row.consumption - selfConsumptionFromSolar
  let excessSolar := row.generation - selfConsumptionFromSolar
  -- 2. Discharge from battery to meet home demand (if not a force-charge hour)
  let dischargeForHome := min remainingDemand
    (min (availableEnergyInBattery * efficiencySqrt) (params.maxDischargeRate * HOURS_PER_INTERVAL))
  let dischargeApplied :=
    if ¬ isForceChargeHour params hour ∧ dischargeForHome > FLOAT_TOLERANCE then dischargeForHome else 0
  let remainingDemand2 := remainingDemand - dischargeApplied
  -- 4. Handle excess solar generation
  let chargeFromSolar := min excessSolar
    (min (spaceInBattery / efficiencySqrt) (params.maxChargeRate * HOURS_PER_INTERVAL))
  let solarCharge :=
    if excessSolar > 0 ∧ ¬ (isExportStrategy params ∧ isPreChargeHour params hour) ∧
        chargeFromSolar > FLOAT_TOLERANCE then chargeFromSolar else 0
  let exportAfterSolar := if excessSolar > 0 then excessSolar - solarCharge else 0
  -- 5a. Pre-emptive discharge before a force-charge window
  let energyToDischarge :=
    min (availableEnergyInBattery * efficiencySqrt) (params.maxDischargeRate * HOURS_PER_INTERVAL)
  let availableExportCapacity := params.mec - exportAfterSolar / HOURS_PER_INTERVAL
  let finalDischarge := min energyToDischarge (availableExportCapacity * HOURS_PER_INTERVAL)
  let dischargeToGrid :=
    if (isExportStrategy params ∨ isImportMinimiserStrategy params) ∧ isPreChargeHour params hour ∧
        ¬ (params.strategy = .balancedExportMaximiser ∧ isHeatingSeason row.timestamp.month) ∧
        finalDischarge > FLOAT_TOLERANCE then finalDischarge else 0
  -- 5b. Force charge from grid
  let availableGridPowerForCharge := params.mic - remainingDemand2 / HOURS_PER_INTERVAL
  let chargePower := min params.maxChargeRate availableGridPowerForCharge
  let energyToCharge := min (max 0 (chargePower * HOURS_PER_INTERVAL)) (spaceInBattery / efficiencySqrt)
  let forceChargeApplied :=
    if (isExportStrategy params ∨ isImportMinimiserStrategy params) ∧ isForceChargeHour params hour ∧
        energyToCharge > FLOAT_TOLERANCE then energyToCharge else 0
  { selfUse := selfConsumptionFromSolar
    dischargeApplied := dischargeApplied
    remainingDemand := remainingDemand2
    solarCharge := solarCharge
    exportAfterSolar := exportAfterSolar
    dischargeToGrid := dischargeToGrid
    forceChargeApplied := forceChargeApplied
    preClipExport := exportAfterSolar + dischargeToGrid }

/-- The `IntervalResult` returned by `runSingleTimeStep`. -/
structure StepResult where
  gridImport : ℚ
  gridExport : ℚ
  toBattery : ℚ
  fromBattery : ℚ
  newSoC : ℚ
  newForceChargeScheduledToday : Bool
deriving DecidableEq, Repr

/-- `runSingleTimeStep` of the source, assembled from `runStepParts`:
grid import is the unmet home demand plus the 5b grid charge, grid export is
the pre-clip export clamped to `mec * HOURS_PER_INTERVAL` (step 6),
`toBattery` accumulates the two pre-efficiency charges, `fromBattery`
accumulates the two battery-side discharges (each applied amount divided by
`efficiencySqrt`), and the new SoC applies the efficiency-adjusted deposits
and withdrawals in source order. The flag is set to `true` inside step 5b
whenever it runs (its guard is the force-charge-hour test), and passed
through otherwise. -/
def runSingleTimeStep (row : Reading) (currentSoC : ℚ) (params : Params)
    (minSoC_kWh maxSoC_kWh efficiencySqrt : ℚ)
    (forceChargeScheduledToday : Bool) : StepResult :=
  let s := runStepParts row currentSoC params minSoC_kWh maxSoC_kWh efficiencySqrt
  { gridImport := s.remainingDemand + s.forceChargeApplied
    gridExport :=
      if s.preClipExport / HOURS_PER_INTERVAL > params.mec then params.mec * HOURS_PER_INTERVAL
      else s.preClipExport
    toBattery := s.solarCharge + s.forceChargeApplied
    fromBattery := s.dischargeApplied / efficiencySqrt + s.dischargeToGrid / efficiencySqrt
    newSoC := currentSoC - s.dischargeApplied / efficiencySqrt + s.solarCharge * efficiencySqrt
      - s.dischargeToGrid / efficiencySqrt + s.forceChargeApplied * efficiencySqrt
    newForceChargeScheduledToday :=
      if (isExportStrategy params ∨ isImportMinimiserStrategy params) ∧
          isForceChargeHour params row.timestamp.hour then true
      else forceChargeScheduledToday }

/-- The per-month accumulator object created by `runSimulation`, with the
fields of the source's object literal. `missedFullCharges` is a day counter. -/
structure Monthly where
  costWithoutBattery : ℚ
  costWithBattery : ℚ
  exportRevenue : ℚ
  savings : ℚ
  importWithoutBattery : ℚ
  importWithBattery : ℚ
  exportWithBattery : ℚ
  consumption : ℚ
  generation : ℚ
  chargedToBattery : ℚ
  dischargedFromBattery : ℚ
  missedFullCharges : ℕ
deriving DecidableEq, Repr

/-- The zero-initialised monthly accumulator. -/
def Monthly.init : Monthly :=
  { costWithoutBattery := 0, costWithBattery := 0, exportRevenue := 0, savings := 0
    importWithoutBattery := 0, importWithBattery := 0, exportWithBattery := 0
    consumption := 0, generation := 0, chargedToBattery := 0
    dischargedFromBattery := 0, missedFullCharges := 0 }

/-- The `monthlyData` object of the source, keyed by month key, modelled as an
association list in insertion order. -/
abbrev MonthMap := List ((ℕ × ℕ) × Monthly)

/-- Lookup `monthlyData[key]`. -/
def lookupMonth (md : MonthMap) (k : ℕ × ℕ) : Option Monthly :=
  (md.find? (fun kv => kv.1 == k)).map (fun kv => kv.2)

/-- In-place mutation of `monthlyData[key]` when the key is present (the
source guards its mutations with existence of the entry). -/
def updateMonth (md : MonthMap) (k : ℕ × ℕ) (f : Monthly → Monthly) : MonthMap :=
  md.map (fun kv => if kv.1 = k then (kv.1, f kv.2) else kv)

/-- `if (!monthlyData[mKey]) monthlyData[mKey] = { ...init... }`. -/
def ensureMonth (md : MonthMap) (k : ℕ × ℕ) : MonthMap :=
  if (lookupMonth md k).isSome then md else md ++ [(k, Monthly.init)]

/-- One entry of the `detailedLog` array. -/
structure LogEntry where
  timestamp : Timestamp
  consumption : ℚ
  generation : ℚ
  gridImport : ℚ
  gridExport : ℚ
  batteryCharge : ℚ
  batteryDischarge : ℚ
  batterySoC : ℚ
deriving DecidableEq, Repr

/-- The mutable loop state of `runSimulation`: the battery SoC, the running
daily peak SoC, the "force charge scheduled today" flag, the monthly
accumulators and the detailed log. -/
structure SimState where
  batterySoC : ℚ
  dailyMaxSoC : ℚ
  forceChargeScheduledToday : Bool
  monthlyData : MonthMap
  detailedLog : List LogEntry

/-- The month-creation and day-rollover prologue of one `runSimulation` loop
iteration: create the current month's accumulator if missing, then, when the
UTC day of month of the current row differs from the previous row's (the
source compares `getUTCDate()` values), log a missed full charge against the
previous row's month if a force charge was scheduled and the daily peak SoC
stayed below 99% of `maxSoC_kWh`, reset the daily peak tracker to the current
SoC and clear the flag. -/
def rolloverCheck (maxSoC_kWh : ℚ) (prevRow : Option Reading) (st : SimState)
    (row : Reading) : SimState :=
  let md1 := ensureMonth st.monthlyData (monthKey row.timestamp)
  match prevRow with
  | none => { st with monthlyData := md1 }
  | some prev =>
    if row.timestamp.day ≠ prev.timestamp.day then
      let md2 :=
        if st.forceChargeScheduledToday = true ∧ st.dailyMaxSoC < maxSoC_kWh * (99 / 100) then
          updateMonth md1 (monthKey prev.timestamp)
            (fun m => { m with missedFullCharges := m.missedFullCharges + 1 })
        else md1
      { batterySoC := st.batterySoC, dailyMaxSoC := st.batterySoC
        forceChargeScheduledToday := false, monthlyData := md2
        detailedLog := st.detailedLog }
    else { st with monthlyData := md1 }

/-- The dispatch-and-accumulate remainder of one `runSimulation` loop
iteration: invoke `runSingleTimeStep`, thread the new SoC and flag, add the
interval's flows and costs into the current month (including the no-battery
baseline `max(0, consumption - generation)`), append the log entry, and track
the daily peak SoC while a force charge is scheduled. -/
def dispatchAccumulate (p : Params) (minSoC_kWh maxSoC_kWh efficiencySqrt : ℚ)
    (st : SimState) (row : Reading) : SimState :=
  let result := runSingleTimeStep row st.batterySoC p minSoC_kWh maxSoC_kWh efficiencySqrt
    st.forceChargeScheduledToday
  let hour := row.timestamp.hour
  let energyImportWithoutBattery := max 0 (row.consumption - row.generation)
  let md := updateMonth st.monthlyData (monthKey row.timestamp) (fun m =>
    { m with
      consumption := m.consumption + row.consumption
      generation := m.generation + row.generation
      importWithBattery := m.importWithBattery + result.gridImport
      exportWithBattery := m.exportWithBattery + result.gridExport
      chargedToBattery := m.chargedToBattery + result.toBattery
      dischargedFromBattery := m.dischargedFromBattery + result.fromBattery
      costWithBattery := m.costWithBattery + result.gridImport * p.importPrices hour
      exportRevenue := m.exportRevenue + result.gridExport * p.exportPrices hour
      costWithoutBattery := m.costWithoutBattery + energyImportWithoutBattery * p.importPrices hour
      importWithoutBattery := m.importWithoutBattery + energyImportWithoutBattery })
  let entry : LogEntry :=
    { timestamp := row.timestamp, consumption := row.consumption
      generation := row.generation, gridImport := result.gridImport
      gridExport := result.gridExport, batteryCharge := result.toBattery
      batteryDischarge := result.fromBattery, batterySoC := result.newSoC }
  { batterySoC := result.newSoC
    dailyMaxSoC :=
      if result.newForceChargeScheduledToday = true then max st.dailyMaxSoC result.newSoC
      else st.dailyMaxSoC
    forceChargeScheduledToday := result.newForceChargeScheduledToday
    monthlyData := md
    detailedLog := st.detailedLog ++ [entry] }

/-- One full iteration of the `runSimulation` loop. -/
def simStep (p : Params) (minSoC_kWh maxSoC_kWh efficiencySqrt : ℚ)
    (prevRow : Option Reading) (st : SimState) (row : Reading) : SimState :=
  dispatchAccumulate p minSoC_kWh maxSoC_kWh efficiencySqrt
    (rolloverCheck maxSoC_kWh prevRow st row) row

/-- The `runSimulation` loop over the data rows, threading the previous row
for the day-rollover check. -/
def simLoop (p : Params) (minSoC_kWh maxSoC_kWh efficiencySqrt : ℚ) :
    Option Reading → SimState → List Reading → SimState
  | _, st, [] => st
  | prevRow, st, row :: rest =>
    simLoop p minSoC_kWh maxSoC_kWh efficiencySqrt (some row)
      (simStep p minSoC_kWh maxSoC_kWh efficiencySqrt prevRow st row) rest

/-- The initial loop state of `runSimulation`: the battery starts at
`minSoC_kWh`, the daily peak tracker at the same value, no force charge
scheduled, no months, empty log. -/
def initialState (minSoC_kWh : ℚ) : SimState :=
  { batterySoC := minSoC_kWh, dailyMaxSoC := minSoC_kWh
    forceChargeScheduledToday := false, monthlyData := [], detailedLog := [] }

/-- The state after `runSimulation`'s loop: `minSoC_kWh` and `maxSoC_kWh` are
derived from the usable capacity and the SoC percentage bounds exactly as in
the source. `efficiencySqrt` stands for `Math.sqrt(params.roundtripEfficiency)`
(see the module docstring). -/
def runSimulationState (data : List Reading) (p : Params) (efficiencySqrt : ℚ) : SimState :=
  let minSoC_kWh := p.usableCapacity * (p.minSoc / 100)
  let maxSoC_kWh := p.usableCapacity * (p.maxSoc / 100)
  simLoop p minSoC_kWh maxSoC_kWh efficiencySqrt none (initialState minSoC_kWh) data

/-- The result object of `runSimulation` after `aggregateFinalResults`.
`paybackPeriod = none` encodes the source's `Infinity` ("never pays back"). -/
structure SimResults where
  annualSavings : ℚ
  paybackPeriod : Option ℚ
  selfSufficiency : ℚ
  annualBillBefore : ℚ
  annualBillAfter : ℚ
  annualImportAfter : ℚ
  annualExportAfter : ℚ
  monthlyData : MonthMap
  detailedLog : List LogEntry

/-- `aggregateFinalResults` of the source: finalize each month's savings,
sum the annual totals, and scale additive totals by
`DAYS_IN_YEAR / (dataLength / INTERVALS_PER_DAY)`. -/
def aggregateFinalResults (monthlyData : MonthMap) (detailedLog : List LogEntry)
    (dataLength : ℕ) (p : Params) : SimResults :=
  let finalized := monthlyData.map (fun kv =>
    (kv.1, { kv.2 with savings := kv.2.costWithoutBattery - (kv.2.costWithBattery - kv.2.exportRevenue) }))
  let totalSavings := (finalized.map (fun kv => kv.2.savings)).sum
  let totalBillBefore := (finalized.map (fun kv => kv.2.costWithoutBattery)).sum
  let totalBillAfter := (finalized.map (fun kv => kv.2.costWithBattery - kv.2.exportRevenue)).sum
  let totalConsumption := (finalized.map (fun kv => kv.2.consumption)).sum
  let totalImportWithBattery := (finalized.map (fun kv => kv.2.importWithBattery)).sum
  let totalExportWithBattery := (finalized.map (fun kv => kv.2.exportWithBattery)).sum
  let daysInData : ℚ := (dataLength : ℚ) / INTERVALS_PER_DAY
  let scalingFactor := if daysInData > 0 then DAYS_IN_YEAR / daysInData else 1
  let annualSavings := totalSavings * scalingFactor
  { annualSavings := annualSavings
    paybackPeriod :=
      if p.systemCost > 0 ∧ annualSavings > 0 then some (p.systemCost / annualSavings) else none
    selfSufficiency :=
      if totalConsumption > 0 then (1 - totalImportWithBattery / totalConsumption) * 100 else 0
    annualBillBefore := totalBillBefore * scalingFactor
    annualBillAfter := totalBillAfter * scalingFactor
    annualImportAfter := totalImportWithBattery * scalingFactor
    annualExportAfter := totalExportWithBattery * scalingFactor
    monthlyData := finalized
    detailedLog := detailedLog }

/-- `runSimulation` of the source: run the loop, then aggregate. -/
def runSimulation (data : List Reading) (p : Params) (efficiencySqrt : ℚ) : SimResults :=
  aggregateFinalResults (runSimulationState data p efficiencySqrt).monthlyData
    (runSimulationState data p efficiencySqrt).detailedLog data.length p

/-- The per-size parameter derivation of `runOptimizationAnalysis`: the
candidate size replaces the battery capacity and the usable capacity is
rescaled to the same percentage (`usablePctInput` models the usable-capacity
percentage read from the UI input field). -/
def optimizationParams (baseParams : Params) (usablePctInput : ℚ) (size : ℚ) : Params :=
  { baseParams with batteryCapacity := size, usableCapacity := size * (usablePctInput / 100) }

/-- The annual savings `runOptimizationAnalysis` collects for one candidate
battery size and one strategy. -/
def optimizationSavings (data : List Reading) (baseParams : Params)
    (usablePctInput : ℚ) (strategy : Strategy) (size : ℚ) (efficiencySqrt : ℚ) : ℚ :=
  (runSimulation data
    { optimizationParams baseParams usablePctInput size with strategy := strategy }
    efficiencySqrt).annualSavings

/-- `params.forceChargeHours.some(h => h === true)` in `runFullSimulation`. -/
def hasForceChargeHours (p : Params) : Bool :=
  (List.range 24).any (fun h => p.forceChargeHours h)

/-- `requiresForceCharge` in `runFullSimulation`: the three strategies whose
force-charge logic depends on the mask. -/
def requiresForceCharge (p : Params) : Bool :=
  decide (p.strategy = .exportMaximiser) || decide (p.strategy = .balancedExportMaximiser) ||
    decide (p.strategy = .importMinimiser)

/-- The error message `runFullSimulation` reports when a force-charge
dependent strategy is selected with an empty force-charge mask. -/
def forceChargeConfigError (p : Params) : String :=
  "Error: For the " ++ p.strategy.sourceName ++
    " strategy, you must select at least one hour for Force Charging."

/-- The simulation-relevant control flow of `runFullSimulation`: the
force-charge precondition is checked first and aborts the run before any
parsing or simulation; otherwise the four strategy comparison simulations
run. File reading, UI status updates, chart generation and the size sweep
are external collaborators and are elided. -/
def runFullSimulation (data : List Reading) (p : Params) (efficiencySqrt : ℚ) :
    Except String (SimResults × SimResults × SimResults × SimResults) :=
  if requiresForceCharge p = true ∧ hasForceChargeHours p = false then
    .error (forceChargeConfigError p)
  else
    .ok (runSimulation data { p with strategy := .selfConsumption } efficiencySqrt,
         runSimulation data { p with strategy := .exportMaximiser } efficiencySqrt,
         runSimulation data { p with strategy := .balancedExportMaximiser } efficiencySqrt,
         runSimulation data { p with strategy := .importMinimiser } efficiencySqrt)

/-- Modelled from the spec: the HistoricalForecast strategy (spec section 4.2)
is absent from the source under src/ (only the four other strategy strings
appear there), so its pre-pass is modelled from the spec's words: before the
loop, `averageDailyConsumptionKWh` is the total consumption over the dataset
divided by the total days (`data.length / INTERVALS_PER_DAY`). -/
def averageDailyConsumptionKWh (data : List Reading) : ℚ :=
  (data.map (fun r => r.consumption)).sum / ((data.length : ℚ) / INTERVALS_PER_DAY)

/-- Modelled from the spec: the HistoricalForecast force-charge gate. At
interval index `i`, look ahead at the next `INTERVALS_PER_DAY` readings; the
force charge is skipped when they all exist and their summed generation
exceeds `averageDailyConsumptionKWh * 0.75`. -/
def hfSkipForceCharge (data : List Reading) (i : ℕ) (avg : ℚ) : Bool :=
  let lookahead := (data.drop (i + 1)).take intervalsPerDayCount
  decide (lookahead.length = intervalsPerDayCount) &&
    decide ((lookahead.map (fun r => r.generation)).sum > avg * (3 / 4))

/-- Modelled from the spec: the HistoricalForecast dispatch of a force-charge
hour whose force charge is skipped by the lookahead gate. The interval is
still a force-charge hour, so step 2 (discharge for home demand) stays
skipped; HistoricalForecast is not export-style, so excess solar charges the
battery as usual; step 5b is skipped by the gate, so no grid force charge
occurs and, following the spec's rule that the flag is set only when charging
actually proceeds, the flag passes through unchanged; step 6 clips the
export. -/
def hfStepForceChargeSkipped (row : Reading) (currentSoC : ℚ) (p : Params)
    (_minSoC_kWh maxSoC_kWh efficiencySqrt : ℚ) (flag : Bool) : StepResult :=
  let spaceInBattery := max 0 (maxSoC_kWh - currentSoC)
  let selfUse := min row.consumption row.generation
  let remainingDemand := row.consumption - selfUse
  let excessSolar := row.generation - selfUse
  let chargeFromSolar := min excessSolar
    (min (spaceInBattery / efficiencySqrt) (p.maxChargeRate * HOURS_PER_INTERVAL))
  let solarCharge :=
    if excessSolar > 0 ∧ chargeFromSolar > FLOAT_TOLERANCE then chargeFromSolar else 0
  let exportAfterSolar := if excessSolar > 0 then excessSolar - solarCharge else 0
  { gridImport := remainingDemand
    gridExport :=
      if exportAfterSolar / HOURS_PER_INTERVAL > p.mec then p.mec * HOURS_PER_INTERVAL
      else exportAfterSolar
    toBattery := solarCharge
    fromBattery := 0
    newSoC := currentSoC + solarCharge * efficiencySqrt
    newForceChargeScheduledToday := flag }

/-- Modelled from the spec: the HistoricalForecast per-interval dispatch.
When the interval is a force-charge hour and the lookahead gate fires
(tomorrow's solar is predicted sufficient), the force charge is skipped;
otherwise the interval is dispatched exactly as for the other, non-export
force-charge-aware strategy (import-minimiser): same step order, same
force-charge behaviour, no pre-charge lookahead. The runner's pre-pass value
`averageDailyConsumptionKWh data` feeds the gate. -/
def hfRunSingleTimeStep (data : List Reading) (i : ℕ) (row : Reading)
    (currentSoC : ℚ) (p : Params) (minSoC_kWh maxSoC_kWh efficiencySqrt : ℚ)
    (flag : Bool) : StepResult :=
  if p.forceChargeHours row.timestamp.hour = true ∧
      hfSkipForceCharge data i (averageDailyConsumptionKWh data) = true then
    hfStepForceChargeSkipped row currentSoC p minSoC_kWh maxSoC_kWh efficiencySqrt flag
  else
    runSingleTimeStep row currentSoC { p with strategy := .importMinimiser }
      minSoC_kWh maxSoC_kWh efficiencySqrt flag

/-- A base parameter set shared by the concrete scenarios below: 10 kWh
battery fully usable, SoC bounds 0%/100%, 100 kW charge and discharge rate
caps (never binding), 100 kW import and export capacity, roundtrip
efficiency 1 (so `efficiencySqrt = 1` exactly), flat zero tariffs and an
empty force-charge mask. Individual scenarios override fields. -/
def baseParams : Params :=
  { batteryCapacity := 10, usableCapacity := 10, minSoc := 0, maxSoc := 100
    maxChargeRate := 100, maxDischargeRate := 100, roundtripEfficiency := 1
    systemCost := 0, strategy := .selfConsumption, mic := 100, mec := 100
    importPrices := fun _ => 0, exportPrices := fun _ => 0
    forceChargeHours := fun _ => false }

/-- Scenario for the SoC-bound violation: export-maximiser with hour 23
force-charge flagged. The first reading (hour 0, solar 12 kWh) fills the
battery to 10 kWh; the second (hour 19, demand 10 kWh) is a pre-charge hour
(hour 23 lies in its 4-hour window). -/
def c1Params : Params :=
  { baseParams with strategy := .exportMaximiser, forceChargeHours := fun h => h == 23 }

/-- The two readings of the SoC-bound violation run (both on 2023-01-05). -/
def c1Data : List Reading :=
  [{ timestamp := { year := 2023, month := 0, day := 5, hour := 0, minute := 0 }
     consumption := 0, generation := 12 },
   { timestamp := { year := 2023, month := 0, day := 5, hour := 19, minute := 0 }
     consumption := 10, generation := 0 }]

/-- Scenario for the conservation-equation counterexample: one
self-consumption interval with 2 kWh of excess solar charging an empty
battery. -/
def c2Row : Reading :=
  { timestamp := { year := 2023, month := 5, day := 10, hour := 12, minute := 0 }
    consumption := 0, generation := 2 }

/-- Witness reading for the amended conservation law (1 kWh demand, 2 kWh
solar). -/
def c2wRow : Reading :=
  { timestamp := { year := 2023, month := 5, day := 10, hour := 12, minute := 0 }
    consumption := 1, generation := 2 }

/-- Scenario for the flag claim: import-minimiser with hour 2 force-charge
flagged. -/
def c3Params : Params :=
  { baseParams with strategy := .importMinimiser, forceChargeHours := fun h => h == 2 }

/-- A force-charge-hour reading with no demand and no solar. -/
def c3Row : Reading :=
  { timestamp := { year := 2023, month := 3, day := 7, hour := 2, minute := 0 }
    consumption := 0, generation := 0 }

/-- A reading at an hour with an empty force-charge mask, for the
HistoricalForecast witness. -/
def c4Row : Reading :=
  { timestamp := { year := 2023, month := 6, day := 1, hour := 7, minute := 0 }
    consumption := 1, generation := 0 }

/-- Base parameters for the size-sweep counterexample: export price (10) far
above the import price (1), so storing solar loses the export revenue. -/
def c5Base : Params :=
  { baseParams with importPrices := fun _ => 1, exportPrices := fun _ => 10 }

/-- Size-sweep counterexample data: 10 kWh of excess solar at hour 10, then
10 kWh of demand at hour 18 of the same day. -/
def c5Data : List Reading :=
  [{ timestamp := { year := 2023, month := 0, day := 3, hour := 10, minute := 0 }
     consumption := 0, generation := 10 },
   { timestamp := { year := 2023, month := 0, day := 3, hour := 18, minute := 0 }
     consumption := 10, generation := 0 }]

/-- Base parameters for the monotone size-sweep instance: import price 0.3,
export price 0.1. -/
def c5GoodBase : Params :=
  { baseParams with importPrices := fun _ => 3 / 10, exportPrices := fun _ => 1 / 10 }

/-- Monotone-instance data: 15 kWh of excess solar, then 15 kWh of demand. -/
def c5GoodData : List Reading :=
  [{ timestamp := { year := 2023, month := 0, day := 3, hour := 10, minute := 0 }
     consumption := 0, generation := 15 },
   { timestamp := { year := 2023, month := 0, day := 3, hour := 18, minute := 0 }
     consumption := 15, generation := 0 }]

/-- Day-rollover scenario: import-minimiser force-charging at hour 2 with a
1 kW charge rate (so the daily peak SoC stays far below 99% of the 10 kWh
maximum). -/
def c6Params : Params :=
  { baseParams with
    strategy := .importMinimiser
    maxChargeRate := 1
    maxDischargeRate := 1
    forceChargeHours := fun h => h == 2 }

/-- Two consecutive readings on different UTC calendar dates (2023-01-05 and
2023-02-05) that share the same UTC day of month (5). -/
def c6Data : List Reading :=
  [{ timestamp := { year := 2023, month := 0, day := 5, hour := 2, minute := 0 }
     consumption := 0, generation := 0 },
   { timestamp := { year := 2023, month := 1, day := 5, hour := 3, minute := 0 }
     consumption := 0, generation := 0 }]

/-- Previous-row reading for the day-rollover witness (2023-01-05 23:30). -/
def c6wPrev : Reading :=
  { timestamp := { year := 2023, month := 0, day := 5, hour := 23, minute := 30 }
    consumption := 0, generation := 0 }

/-- Current-row reading for the day-rollover witness (2023-01-06 00:00). -/
def c6wRow : Reading :=
  { timestamp := { year := 2023, month := 0, day := 6, hour := 0, minute := 0 }
    consumption := 0, generation := 0 }

/-- Loop state for the day-rollover witness: a force charge was scheduled and
the daily peak (4 kWh) is below 99% of the 10 kWh maximum. -/
def c6wState : SimState :=
  { batterySoC := 3, dailyMaxSoC := 4, forceChargeScheduledToday := true
    monthlyData := [((2023, 0), Monthly.init)], detailedLog := [] }

/-- Force-charge-hour parameters for the no-discharge witness: the
import-minimiser strategy with hour 1 flagged. -/
def c7Params : Params :=
  { baseParams with strategy := .importMinimiser, forceChargeHours := fun h => h == 1 }

/-- A force-charge-hour reading with 1 kWh of demand. -/
def c7Row : Reading :=
  { timestamp := { year := 2023, month := 4, day := 2, hour := 1, minute := 0 }
    consumption := 1, generation := 0 }

/-- A force-charge-dependent strategy with an empty force-charge mask, for
the precondition-check witness. -/
def c9Params : Params :=
  { baseParams with strategy := .importMinimiser }

/-- An amount applied only above the positive tolerance is nonnegative. -/
lemma ite_gt_tol_nonneg {A : Prop} [Decidable A] {x : ℚ}
    (hA : A → FLOAT_TOLERANCE < x) : (0:ℚ) ≤ if A then x else 0 := by
  split_ifs with h
  · have htol : (0:ℚ) < FLOAT_TOLERANCE := by norm_num [FLOAT_TOLERANCE]
    exact le_of_lt (lt_trans htol (hA h))
  · exact le_refl 0

section StepLemmas

variable (row : Reading) (currentSoC : ℚ) (params : Params)
variable (minSoC_kWh maxSoC_kWh efficiencySqrt : ℚ)

lemma dischargeApplied_nonneg :
    0 ≤ (runStepParts row currentSoC params minSoC_kWh maxSoC_kWh efficiencySqrt).dischargeApplied := by
  unfold runStepParts
  dsimp only
  exact ite_gt_tol_nonneg (fun h => h.2)

lemma solarCharge_nonneg :
    0 ≤ (runStepParts row currentSoC params minSoC_kWh maxSoC_kWh efficiencySqrt).solarCharge := by
  unfold runStepParts
  dsimp only
  exact ite_gt_tol_nonneg (fun h => h.2.2)

lemma dischargeToGrid_nonneg :
    0 ≤ (runStepParts row currentSoC params minSoC_kWh maxSoC_kWh efficiencySqrt).dischargeToGrid := by
  unfold runStepParts
  dsimp only
  exact ite_gt_tol_nonneg (fun h => h.2.2.2)

lemma forceChargeApplied_nonneg :
    0 ≤ (runStepParts row currentSoC params minSoC_kWh maxSoC_kWh efficiencySqrt).forceChargeApplied := by
  unfold runStepParts
  dsimp only
  exact ite_gt_tol_nonneg (fun h => h.2.2)

end StepLemmas

section StepProjections

variable (row : Reading) (currentSoC : ℚ) (params : Params)
variable (minSoC_kWh maxSoC_kWh efficiencySqrt : ℚ) (flag : Bool)

lemma step_gridImport_eq :
    (runSingleTimeStep row currentSoC params minSoC_kWh maxSoC_kWh efficiencySqrt flag).gridImport =
      (runStepParts row currentSoC params minSoC_kWh maxSoC_kWh efficiencySqrt).remainingDemand +
        (runStepParts row currentSoC params minSoC_kWh maxSoC_kWh efficiencySqrt).forceChargeApplied := rfl

lemma step_gridExport_eq :
    (runSingleTimeStep row currentSoC params minSoC_kWh maxSoC_kWh efficiencySqrt flag).gridExport =
      if (runStepParts row currentSoC params minSoC_kWh maxSoC_kWh efficiencySqrt).preClipExport /
          HOURS_PER_INTERVAL > params.mec then params.mec * HOURS_PER_INTERVAL
      else (runStepParts row currentSoC params minSoC_kWh maxSoC_kWh efficiencySqrt).preClipExport := rfl

lemma step_toBattery_eq :
    (runSingleTimeStep row currentSoC params minSoC_kWh maxSoC_kWh efficiencySqrt flag).toBattery =
      (runStepParts row currentSoC params minSoC_kWh maxSoC_kWh efficiencySqrt).solarCharge +
        (runStepParts row currentSoC params minSoC_kWh maxSoC_kWh efficiencySqrt).forceChargeApplied := rfl

lemma step_fromBattery_eq :
    (runSingleTimeStep row currentSoC params minSoC_kWh maxSoC_kWh efficiencySqrt flag).fromBattery =
      (runStepParts row currentSoC params minSoC_kWh maxSoC_kWh efficiencySqrt).dischargeApplied / efficiencySqrt +
        (runStepParts row currentSoC params minSoC_kWh maxSoC_kWh efficiencySqrt).dischargeToGrid / efficiencySqrt := rfl

lemma step_newSoC_eq :
    (runSingleTimeStep row currentSoC params minSoC_kWh maxSoC_kWh efficiencySqrt flag).newSoC =
      currentSoC
        - (runStepParts row currentSoC params minSoC_kWh maxSoC_kWh efficiencySqrt).dischargeApplied / efficiencySqrt
        + (runStepParts row currentSoC params minSoC_kWh maxSoC_kWh efficiencySqrt).solarCharge * efficiencySqrt
        - (runStepParts row currentSoC params minSoC_kWh maxSoC_kWh efficiencySqrt).dischargeToGrid / efficiencySqrt
        + (runStepParts row currentSoC params minSoC_kWh maxSoC_kWh efficiencySqrt).forceChargeApplied * efficiencySqrt := rfl

lemma parts_selfUse_eq :
    (runStepParts row currentSoC params minSoC_kWh maxSoC_kWh efficiencySqrt).selfUse =
      min row.consumption row.generation := rfl

lemma parts_remainingDemand_eq :
    (runStepParts row currentSoC params minSoC_kWh maxSoC_kWh efficiencySqrt).remainingDemand =
      row.consumption - min row.consumption row.generation -
        (runStepParts row currentSoC params minSoC_kWh maxSoC_kWh efficiencySqrt).dischargeApplied := rfl

lemma parts_preClipExport_eq :
    (runStepParts row currentSoC params minSoC_kWh maxSoC_kWh efficiencySqrt).preClipExport =
      (runStepParts row currentSoC params minSoC_kWh maxSoC_kWh efficiencySqrt).exportAfterSolar +
        (runStepParts row currentSoC params minSoC_kWh maxSoC_kWh efficiencySqrt).dischargeToGrid := rfl

/-- The flag returned by the step is the input flag OR the force-charge-hour
test (step 5b sets it whenever it runs, and passes it through otherwise). -/
lemma step_flag_eq :
    (runSingleTimeStep row currentSoC params minSoC_kWh maxSoC_kWh efficiencySqrt flag).newForceChargeScheduledToday =
      (flag || decide (isForceChargeHour params row.timestamp.hour)) := by
  unfold runSingleTimeStep
  dsimp only
  by_cases h : isForceChargeHour params row.timestamp.hour
  · rw [if_pos ⟨h.1, h⟩]
    simp [h]
  · rw [if_neg (fun hand => h hand.2)]
    simp [h]

/-- Step 2 does not fire during a force-charge hour. -/
lemma dischargeApplied_zero_of_fc (hfc : isForceChargeHour params row.timestamp.hour) :
    (runStepParts row currentSoC params minSoC_kWh maxSoC_kWh efficiencySqrt).dischargeApplied = 0 := by
  unfold runStepParts
  dsimp only
  exact if_neg (fun h => h.1 hfc)

/-- Step 5a does not fire during a force-charge hour (its pre-charge-hour
condition requires the hour not to be a force-charge hour). -/
lemma dischargeToGrid_zero_of_fc (hfc : isForceChargeHour params row.timestamp.hour) :
    (runStepParts row currentSoC params minSoC_kWh maxSoC_kWh efficiencySqrt).dischargeToGrid = 0 := by
  unfold runStepParts
  dsimp only
  exact if_neg (fun h => h.2.1.2.1 hfc)

/-- The export accumulated by step 4 and the solar charge split the excess
solar exactly (for nonnegative readings). -/
lemma parts_solar_split :
    (runStepParts row currentSoC params minSoC_kWh maxSoC_kWh efficiencySqrt).exportAfterSolar +
      (runStepParts row currentSoC params minSoC_kWh maxSoC_kWh efficiencySqrt).solarCharge =
      row.generation - min row.consumption row.generation := by
  have hmin : min row.consumption row.generation ≤ row.generation := min_le_right _ _
  unfold runStepParts
  dsimp only
  split_ifs with h1 h2 h3 <;> try ring_nf
  all_goals linarith

/-- The pre-emptive discharge of step 5a never exceeds the remaining export
headroom. -/
lemma dischargeToGrid_cases :
    (runStepParts row currentSoC params minSoC_kWh maxSoC_kWh efficiencySqrt).dischargeToGrid = 0 ∨
    (runStepParts row currentSoC params minSoC_kWh maxSoC_kWh efficiencySqrt).dischargeToGrid ≤
      (params.mec -
        (runStepParts row currentSoC params minSoC_kWh maxSoC_kWh efficiencySqrt).exportAfterSolar /
          HOURS_PER_INTERVAL) * HOURS_PER_INTERVAL := by
  unfold runStepParts
  dsimp only
  split_ifs <;> first
    | exact Or.inl rfl
    | exact Or.inr (min_le_right _ _)

end StepProjections

/-- For nonnegative `a`, `b`: `a - min a b = max 0 (a - b)`. -/
lemma sub_min_eq_max_zero (a b : ℚ) : a - min a b = max 0 (a - b) := by
  rcases le_total a b with h | h
  · rw [min_eq_left h, max_eq_left (by linarith)]
    ring
  · rw [min_eq_right h, max_eq_right (by linarith)]

/-- Updating a month's entry is visible through lookup. -/
lemma lookupMonth_updateMonth (md : MonthMap) (k : ℕ × ℕ) (f : Monthly → Monthly) :
    lookupMonth (updateMonth md k f) k = (lookupMonth md k).map f := by
  induction md with
  | nil => rfl
  | cons kv rest ih =>
    by_cases h : kv.1 = k
    · simp [lookupMonth, updateMonth, List.find?, h]
    · have hb : (kv.1 == k) = false := beq_eq_false_iff_ne.mpr h
      simp only [updateMonth, List.map_cons, if_neg h, lookupMonth, List.find?, hb]
      exact ih

section ClaimTheorems

/-- C8: for every interval dispatched by `runSingleTimeStep` (any strategy,
any inputs), the returned grid export never exceeds the maximum export
capacity: `gridExportKWh / intervalHours ≤ mecKW` exactly, hence also within
the `FLOAT_TOLERANCE` slack, because step 6 clamps the total export to
`mecKW * intervalHours`. -/
theorem export_capped_by_mec (row : Reading) (currentSoC : ℚ) (params : Params)
    (minSoC_kWh maxSoC_kWh efficiencySqrt : ℚ) (flag : Bool) :
    (runSingleTimeStep row currentSoC params minSoC_kWh maxSoC_kWh efficiencySqrt flag).gridExport /
        HOURS_PER_INTERVAL ≤ params.mec ∧
    (runSingleTimeStep row currentSoC params minSoC_kWh maxSoC_kWh efficiencySqrt flag).gridExport /
        HOURS_PER_INTERVAL ≤ params.mec + FLOAT_TOLERANCE := by
  have hmain : (runSingleTimeStep row currentSoC params minSoC_kWh maxSoC_kWh efficiencySqrt
      flag).gridExport / HOURS_PER_INTERVAL ≤ params.mec := by
    rw [step_gridExport_eq]
    split_ifs with h
    · norm_num [HOURS_PER_INTERVAL]
    · exact not_lt.mp h
  have htol : (0:ℚ) < FLOAT_TOLERANCE := by norm_num [FLOAT_TOLERANCE]
  exact ⟨hmain, by linarith⟩

/-- C10: the energy flows returned by `runSingleTimeStep` are identical
whatever the incoming `forceChargeScheduledToday` flag is (the flag feeds no
flow decision), and the outgoing flag is the incoming flag OR'd with the
force-charge-hour test. -/
theorem flag_noninterference (row : Reading) (currentSoC : ℚ) (params : Params)
    (minSoC_kWh maxSoC_kWh efficiencySqrt : ℚ) :
    (∀ f f' : Bool,
      (runSingleTimeStep row currentSoC params minSoC_kWh maxSoC_kWh efficiencySqrt f).gridImport =
        (runSingleTimeStep row currentSoC params minSoC_kWh maxSoC_kWh efficiencySqrt f').gridImport ∧
      (runSingleTimeStep row currentSoC params minSoC_kWh maxSoC_kWh efficiencySqrt f).gridExport =
        (runSingleTimeStep row currentSoC params minSoC_kWh maxSoC_kWh efficiencySqrt f').gridExport ∧
      (runSingleTimeStep row currentSoC params minSoC_kWh maxSoC_kWh efficiencySqrt f).toBattery =
        (runSingleTimeStep row currentSoC params minSoC_kWh maxSoC_kWh efficiencySqrt f').toBattery ∧
      (runSingleTimeStep row currentSoC params minSoC_kWh maxSoC_kWh efficiencySqrt f).fromBattery =
        (runSingleTimeStep row currentSoC params minSoC_kWh maxSoC_kWh efficiencySqrt f').fromBattery ∧
      (runSingleTimeStep row currentSoC params minSoC_kWh maxSoC_kWh efficiencySqrt f).newSoC =
        (runSingleTimeStep row currentSoC params minSoC_kWh maxSoC_kWh efficiencySqrt f').newSoC) ∧
    (∀ f : Bool,
      (runSingleTimeStep row currentSoC params minSoC_kWh maxSoC_kWh efficiencySqrt
          f).newForceChargeScheduledToday =
        (f || decide (isForceChargeHour params row.timestamp.hour))) :=
  ⟨fun _ _ => ⟨rfl, rfl, rfl, rfl, rfl⟩,
   fun f => step_flag_eq row currentSoC params minSoC_kWh maxSoC_kWh efficiencySqrt f⟩

/-- C7: during a force-charge hour the dispatch engine never discharges the
battery: `fromBattery = 0` (step 2 is skipped and the pre-emptive discharge
5a cannot fire, since a force-charge hour is never a pre-charge hour) and the
state of charge does not decrease. `efficiencySqrt = sqrt(roundtripEfficiency)`
is nonnegative by construction in the source. -/
theorem no_discharge_during_force_charge (row : Reading) (currentSoC : ℚ) (params : Params)
    (minSoC_kWh maxSoC_kWh efficiencySqrt : ℚ) (flag : Bool)
    (he : 0 ≤ efficiencySqrt)
    (hfc : isForceChargeHour params row.timestamp.hour) :
    (runSingleTimeStep row currentSoC params minSoC_kWh maxSoC_kWh efficiencySqrt
        flag).fromBattery = 0 ∧
    currentSoC ≤
      (runSingleTimeStep row currentSoC params minSoC_kWh maxSoC_kWh efficiencySqrt flag).newSoC := by
  have h1 := dischargeApplied_zero_of_fc row currentSoC params minSoC_kWh maxSoC_kWh efficiencySqrt hfc
  have h2 := dischargeToGrid_zero_of_fc row currentSoC params minSoC_kWh maxSoC_kWh efficiencySqrt hfc
  constructor
  · rw [step_fromBattery_eq, h1, h2]
    simp
  · rw [step_newSoC_eq, h1, h2]
    have h3 := solarCharge_nonneg row currentSoC params minSoC_kWh maxSoC_kWh efficiencySqrt
    have h4 := forceChargeApplied_nonneg row currentSoC params minSoC_kWh maxSoC_kWh efficiencySqrt
    have h5 : 0 ≤ (runStepParts row currentSoC params minSoC_kWh maxSoC_kWh
        efficiencySqrt).solarCharge * efficiencySqrt := mul_nonneg h3 he
    have h6 : 0 ≤ (runStepParts row currentSoC params minSoC_kWh maxSoC_kWh
        efficiencySqrt).forceChargeApplied * efficiencySqrt := mul_nonneg h4 he
    simp only [zero_div]
    linarith

/-- Witness for C7 at a concrete force-charge-hour input. -/
theorem no_discharge_during_force_charge_witness :
    (0:ℚ) ≤ 1 ∧ isForceChargeHour c7Params c7Row.timestamp.hour ∧
      ((runSingleTimeStep c7Row 5 c7Params 0 10 1 false).fromBattery = 0 ∧
        (5:ℚ) ≤ (runSingleTimeStep c7Row 5 c7Params 0 10 1 false).newSoC) :=
  ⟨by norm_num, by decide,
   no_discharge_during_force_charge c7Row 5 c7Params 0 10 1 false (by norm_num) (by decide)⟩

/-- C2, counterexample: the claimed equation
`consumption + toBattery = selfUse + gridImport` fails on a self-consumption
interval whose excess solar charges the battery (consumption 0, generation 2:
the left side is 2, the right side is 0). -/
theorem conservation_as_stated_fails :
    c2Row.consumption + (runSingleTimeStep c2Row 0 baseParams 0 10 1 false).toBattery ≠
      min c2Row.consumption c2Row.generation +
        (runSingleTimeStep c2Row 0 baseParams 0 10 1 false).gridImport := by
  norm_num +decide [runSingleTimeStep, runStepParts, c2Row, baseParams,
    isExportStrategy, isImportMinimiserStrategy, isForceChargeHour, isPreChargeHour,
    isHeatingSeason, HOURS_PER_INTERVAL, FLOAT_TOLERANCE, min_def, max_def]

/-- C2, amended: the battery-side balance holds unconditionally for every
dispatch (step 6 touches only `gridExport`): the new SoC is the old SoC plus
the deposit `toBattery * efficiencySqrt` minus the battery-side withdrawal
`fromBattery` (whose delivered energy is `fromBattery * efficiencySqrt`).
Additionally, for every interval with nonnegative readings whose generation
stays within the export cap (so the final clip of step 6 does not discard
energy), AC-bus energy conservation holds:
`generation + gridImport + fromBattery * efficiencySqrt
  = consumption + gridExport + toBattery`. -/
theorem interval_energy_conservation (row : Reading) (currentSoC : ℚ) (params : Params)
    (minSoC_kWh maxSoC_kWh efficiencySqrt : ℚ) (flag : Bool) :
    (runSingleTimeStep row currentSoC params minSoC_kWh maxSoC_kWh efficiencySqrt flag).newSoC =
      currentSoC +
        (runSingleTimeStep row currentSoC params minSoC_kWh maxSoC_kWh efficiencySqrt flag).toBattery *
          efficiencySqrt -
        (runSingleTimeStep row currentSoC params minSoC_kWh maxSoC_kWh efficiencySqrt flag).fromBattery ∧
    (0 < efficiencySqrt → 0 ≤ row.consumption → 0 ≤ row.generation →
      row.generation ≤ params.mec * HOURS_PER_INTERVAL →
      row.generation +
          (runSingleTimeStep row currentSoC params minSoC_kWh maxSoC_kWh efficiencySqrt flag).gridImport +
          (runSingleTimeStep row currentSoC params minSoC_kWh maxSoC_kWh efficiencySqrt flag).fromBattery *
            efficiencySqrt =
        row.consumption +
          (runSingleTimeStep row currentSoC params minSoC_kWh maxSoC_kWh efficiencySqrt flag).gridExport +
          (runSingleTimeStep row currentSoC params minSoC_kWh maxSoC_kWh efficiencySqrt flag).toBattery) := by
  constructor
  · rw [step_newSoC_eq, step_toBattery_eq, step_fromBattery_eq]
    ring
  · intro he hc hg hclip
    have hne : efficiencySqrt ≠ 0 := ne_of_gt he
    have hmin0 : 0 ≤ min row.consumption row.generation := le_min hc hg
    have hsplit := parts_solar_split row currentSoC params minSoC_kWh maxSoC_kWh efficiencySqrt
    have hsc := solarCharge_nonneg row currentSoC params minSoC_kWh maxSoC_kWh efficiencySqrt
    have hd5 := dischargeToGrid_cases row currentSoC params minSoC_kWh maxSoC_kWh efficiencySqrt
    have hexp_le : (runStepParts row currentSoC params minSoC_kWh maxSoC_kWh
        efficiencySqrt).exportAfterSolar ≤ row.generation := by linarith
    have hdist : (params.mec -
          (runStepParts row currentSoC params minSoC_kWh maxSoC_kWh efficiencySqrt).exportAfterSolar /
            HOURS_PER_INTERVAL) * HOURS_PER_INTERVAL =
        params.mec * HOURS_PER_INTERVAL -
          (runStepParts row currentSoC params minSoC_kWh maxSoC_kWh efficiencySqrt).exportAfterSolar := by
      rw [HOURS_PER_INTERVAL]
      ring
    have hpre : (runStepParts row currentSoC params minSoC_kWh maxSoC_kWh
        efficiencySqrt).preClipExport ≤ params.mec * HOURS_PER_INTERVAL := by
      rw [parts_preClipExport_eq]
      rcases hd5 with h | h
      · rw [h]
        linarith
      · linarith
    have hH : (0:ℚ) < HOURS_PER_INTERVAL := by norm_num [HOURS_PER_INTERVAL]
    have hgridexp : (runSingleTimeStep row currentSoC params minSoC_kWh maxSoC_kWh efficiencySqrt
        flag).gridExport =
        (runStepParts row currentSoC params minSoC_kWh maxSoC_kWh efficiencySqrt).preClipExport := by
      rw [step_gridExport_eq]
      exact if_neg (not_lt.mpr ((div_le_iff₀ hH).mpr hpre))
    have hmul : ((runStepParts row currentSoC params minSoC_kWh maxSoC_kWh
            efficiencySqrt).dischargeApplied / efficiencySqrt +
          (runStepParts row currentSoC params minSoC_kWh maxSoC_kWh
            efficiencySqrt).dischargeToGrid / efficiencySqrt) * efficiencySqrt =
        (runStepParts row currentSoC params minSoC_kWh maxSoC_kWh efficiencySqrt).dischargeApplied +
          (runStepParts row currentSoC params minSoC_kWh maxSoC_kWh efficiencySqrt).dischargeToGrid := by
      field_simp
    rw [step_gridImport_eq, step_fromBattery_eq, step_toBattery_eq, hgridexp,
      parts_preClipExport_eq, parts_remainingDemand_eq, hmul]
    linarith

/-- Witness for the amended C2 at a concrete input (consumption 1,
generation 2, roundtrip efficiency 1): the unconditional battery-side
balance, and the AC-bus conservation with its hypotheses discharged. -/
theorem interval_energy_conservation_witness :
    ((runSingleTimeStep c2wRow 0 baseParams 0 10 1 false).newSoC =
        0 + (runSingleTimeStep c2wRow 0 baseParams 0 10 1 false).toBattery * 1 -
          (runSingleTimeStep c2wRow 0 baseParams 0 10 1 false).fromBattery) ∧
    (0:ℚ) < 1 ∧ (0:ℚ) ≤ c2wRow.consumption ∧ (0:ℚ) ≤ c2wRow.generation ∧
      c2wRow.generation ≤ baseParams.mec * HOURS_PER_INTERVAL ∧
      (c2wRow.generation +
          (runSingleTimeStep c2wRow 0 baseParams 0 10 1 false).gridImport +
          (runSingleTimeStep c2wRow 0 baseParams 0 10 1 false).fromBattery * 1 =
        c2wRow.consumption +
          (runSingleTimeStep c2wRow 0 baseParams 0 10 1 false).gridExport +
          (runSingleTimeStep c2wRow 0 baseParams 0 10 1 false).toBattery) :=
  ⟨(interval_energy_conservation c2wRow 0 baseParams 0 10 1 false).1,
   by norm_num, by norm_num [c2wRow], by norm_num [c2wRow],
   by norm_num [c2wRow, baseParams, HOURS_PER_INTERVAL],
   (interval_energy_conservation c2wRow 0 baseParams 0 10 1 false).2 (by norm_num)
     (by norm_num [c2wRow]) (by norm_num [c2wRow])
     (by norm_num [c2wRow, baseParams, HOURS_PER_INTERVAL])⟩

/-- C3, counterexample: during a force-charge hour with the battery already
full (SoC 10 = maxSoC, so no headroom), no charge is applied
(`toBattery = 0`, `gridImport = 0`) yet the output flag is `true` although
the input flag was `false`. -/
theorem flag_set_without_charge :
    (runSingleTimeStep c3Row 10 c3Params 0 10 1 false).toBattery = 0 ∧
    (runSingleTimeStep c3Row 10 c3Params 0 10 1 false).gridImport = 0 ∧
    (runSingleTimeStep c3Row 10 c3Params 0 10 1 false).newForceChargeScheduledToday = true := by
  norm_num +decide [runSingleTimeStep, runStepParts, c3Row, c3Params, baseParams,
    isExportStrategy, isImportMinimiserStrategy, isForceChargeHour, isPreChargeHour,
    isHeatingSeason, HOURS_PER_INTERVAL, FLOAT_TOLERANCE, min_def, max_def]

/-- C3, amended: during a force-charge hour `runSingleTimeStep` sets the
"force charge scheduled today" output flag to `true` unconditionally (step 5b
sets it before testing whether any charge energy clears the tolerance);
outside force-charge hours the output flag equals the input flag. -/
theorem force_charge_flag_unconditional (row : Reading) (currentSoC : ℚ) (params : Params)
    (minSoC_kWh maxSoC_kWh efficiencySqrt : ℚ) (flag : Bool) :
    (runSingleTimeStep row currentSoC params minSoC_kWh maxSoC_kWh efficiencySqrt
        flag).newForceChargeScheduledToday =
      (flag || decide (isForceChargeHour params row.timestamp.hour)) :=
  step_flag_eq row currentSoC params minSoC_kWh maxSoC_kWh efficiencySqrt flag

/-- C6, counterexample: two consecutive readings on different UTC calendar
dates (2023-01-05 then 2023-02-05) that share the UTC day of month 5. A
force charge was scheduled on the first day and the daily peak SoC (0.5 kWh)
stayed far below 99% of the 10 kWh maximum, yet the run performs no rollover
bookkeeping: the flag is still `true` afterwards and no month records a
missed full charge, because the source only compares `getUTCDate()` values. -/
theorem rollover_missed_on_month_gap :
    (c6Data.map (fun r => monthKey r.timestamp)) = [(2023, 0), (2023, 1)] ∧
    (c6Data.map (fun r => r.timestamp.day)) = [5, 5] ∧
    (runSimulationState c6Data c6Params 1).forceChargeScheduledToday = true ∧
    ((runSimulationState c6Data c6Params 1).monthlyData.map
        (fun kv => (kv.1, kv.2.missedFullCharges))) = [((2023, 0), 0), ((2023, 1), 0)] := by
  norm_num +decide [runSimulationState, simLoop, simStep, dispatchAccumulate, rolloverCheck,
    ensureMonth, updateMonth, lookupMonth, initialState, monthKey, Monthly.init,
    runSingleTimeStep, runStepParts, c6Data, c6Params, baseParams,
    isExportStrategy, isImportMinimiserStrategy, isForceChargeHour, isPreChargeHour,
    isHeatingSeason, HOURS_PER_INTERVAL, FLOAT_TOLERANCE, min_def, max_def, List.find?]

/-- C6, amended: the simulation runner performs the day-rollover bookkeeping
exactly when the UTC day of month differs between consecutive readings (for
contiguous half-hourly data this coincides with calendar-date changes, but
the source compares only `getUTCDate()`): it then increments the ended day's
month's `missedFullCharges` exactly when a force charge was scheduled and the
daily peak SoC stayed below 99% of `maxSoC_kWh`, resets the daily peak
tracker to the current SoC, clears the flag, and dispatches the interval from
that rolled-over state; when the day of month is unchanged the state passes
through (up to creating the current month's accumulator). -/
theorem day_rollover_bookkeeping (p : Params) (minSoC_kWh maxSoC_kWh efficiencySqrt : ℚ)
    (prev row : Reading) (st : SimState) :
    (row.timestamp.day ≠ prev.timestamp.day →
      (rolloverCheck maxSoC_kWh (some prev) st row).forceChargeScheduledToday = false ∧
      (rolloverCheck maxSoC_kWh (some prev) st row).dailyMaxSoC = st.batterySoC ∧
      (rolloverCheck maxSoC_kWh (some prev) st row).batterySoC = st.batterySoC ∧
      (rolloverCheck maxSoC_kWh (some prev) st row).detailedLog = st.detailedLog ∧
      (∀ m, lookupMonth (ensureMonth st.monthlyData (monthKey row.timestamp))
          (monthKey prev.timestamp) = some m →
        lookupMonth (rolloverCheck maxSoC_kWh (some prev) st row).monthlyData
            (monthKey prev.timestamp) =
          some (if st.forceChargeScheduledToday = true ∧
              st.dailyMaxSoC < maxSoC_kWh * (99 / 100) then
            { m with missedFullCharges := m.missedFullCharges + 1 } else m)) ∧
      simStep p minSoC_kWh maxSoC_kWh efficiencySqrt (some prev) st row =
        dispatchAccumulate p minSoC_kWh maxSoC_kWh efficiencySqrt
          (rolloverCheck maxSoC_kWh (some prev) st row) row) ∧
    (row.timestamp.day = prev.timestamp.day →
      rolloverCheck maxSoC_kWh (some prev) st row =
        { st with monthlyData := ensureMonth st.monthlyData (monthKey row.timestamp) }) := by
  constructor
  · intro hday
    refine ⟨?_, ?_, ?_, ?_, ?_, rfl⟩
    · unfold rolloverCheck
      dsimp only
      rw [if_pos hday]
    · unfold rolloverCheck
      dsimp only
      rw [if_pos hday]
    · unfold rolloverCheck
      dsimp only
      rw [if_pos hday]
    · unfold rolloverCheck
      dsimp only
      rw [if_pos hday]
    · intro m hm
      unfold rolloverCheck
      dsimp only
      rw [if_pos hday]
      dsimp only
      split_ifs with hcond
      · rw [lookupMonth_updateMonth, hm]
        rfl
      · exact hm
  · intro hday
    unfold rolloverCheck
    dsimp only
    rw [if_neg (fun h => h hday)]

/-- Witness for the amended C6 at a concrete midnight rollover
(2023-01-05 23:30 to 2023-01-06 00:00). -/
theorem day_rollover_bookkeeping_witness :
    c6wRow.timestamp.day ≠ c6wPrev.timestamp.day ∧
    (rolloverCheck 10 (some c6wPrev) c6wState c6wRow).forceChargeScheduledToday = false ∧
    (rolloverCheck 10 (some c6wPrev) c6wState c6wRow).dailyMaxSoC = c6wState.batterySoC :=
  ⟨by decide,
   ((day_rollover_bookkeeping c6Params 0 10 1 c6wPrev c6wRow c6wState).1 (by decide)).1,
   ((day_rollover_bookkeeping c6Params 0 10 1 c6wPrev c6wRow c6wState).1 (by decide)).2.1⟩

/-- C9: when a force-charge-dependent strategy is selected
(`requiresForceCharge`) while no hour of the mask is flagged
(`hasForceChargeHours` is false), `runFullSimulation` reports the
configuration error to the caller before any simulation starts: the result is
the error message and carries no simulation output. -/
theorem force_charge_precondition_error (data : List Reading) (p : Params)
    (efficiencySqrt : ℚ)
    (hreq : requiresForceCharge p = true) (hmask : hasForceChargeHours p = false) :
    runFullSimulation data p efficiencySqrt = .error (forceChargeConfigError p) := by
  unfold runFullSimulation
  rw [if_pos ⟨hreq, hmask⟩]

/-- Witness for C9: import-minimiser with an all-false mask. -/
theorem force_charge_precondition_error_witness :
    requiresForceCharge c9Params = true ∧ hasForceChargeHours c9Params = false ∧
      runFullSimulation [] c9Params 1 = .error (forceChargeConfigError c9Params) :=
  ⟨by decide, by decide,
   force_charge_precondition_error [] c9Params 1 (by decide) (by decide)⟩

/-- C4 (spec-modelled): for the HistoricalForecast strategy, when the
interval is a force-charge hour and the lookahead gate fires (the next
`INTERVALS_PER_DAY` readings all exist and their summed generation exceeds
`averageDailyConsumptionKWh * 0.75`, with the average pre-computed from the
whole dataset), the grid force charge is skipped: the dispatch takes the
gated branch, whose battery charge is bounded by the excess solar, whose
grid import is exactly the unmet home demand `max 0 (consumption - generation)`,
which never discharges, and which leaves the flag unchanged. In every other
case the dispatch is identical to the import-minimiser dispatch of the
source, the non-export force-charge-aware strategy. -/
theorem historical_forecast_lookahead_gate (data : List Reading) (i : ℕ) (row : Reading)
    (currentSoC : ℚ) (p : Params) (minSoC_kWh maxSoC_kWh efficiencySqrt : ℚ) (flag : Bool) :
    (¬ (p.forceChargeHours row.timestamp.hour = true ∧
        hfSkipForceCharge data i (averageDailyConsumptionKWh data) = true) →
      hfRunSingleTimeStep data i row currentSoC p minSoC_kWh maxSoC_kWh efficiencySqrt flag =
        runSingleTimeStep row currentSoC { p with strategy := .importMinimiser }
          minSoC_kWh maxSoC_kWh efficiencySqrt flag) ∧
    ((p.forceChargeHours row.timestamp.hour = true ∧
        hfSkipForceCharge data i (averageDailyConsumptionKWh data) = true) →
      hfRunSingleTimeStep data i row currentSoC p minSoC_kWh maxSoC_kWh efficiencySqrt flag =
        hfStepForceChargeSkipped row currentSoC p minSoC_kWh maxSoC_kWh efficiencySqrt flag ∧
      (hfStepForceChargeSkipped row currentSoC p minSoC_kWh maxSoC_kWh efficiencySqrt
          flag).toBattery ≤ max 0 (row.generation - row.consumption) ∧
      (hfStepForceChargeSkipped row currentSoC p minSoC_kWh maxSoC_kWh efficiencySqrt
          flag).gridImport = max 0 (row.consumption - row.generation) ∧
      (hfStepForceChargeSkipped row currentSoC p minSoC_kWh maxSoC_kWh efficiencySqrt
          flag).fromBattery = 0 ∧
      (hfStepForceChargeSkipped row currentSoC p minSoC_kWh maxSoC_kWh efficiencySqrt
          flag).newForceChargeScheduledToday = flag) := by
  constructor
  · intro h
    unfold hfRunSingleTimeStep
    rw [if_neg h]
  · intro h
    refine ⟨by unfold hfRunSingleTimeStep; rw [if_pos h], ?_, ?_, rfl, rfl⟩
    · unfold hfStepForceChargeSkipped
      dsimp only
      rw [← sub_min_eq_max_zero row.generation row.consumption,
        min_comm row.generation row.consumption]
      have hexc : 0 ≤ row.generation - min row.consumption row.generation := by
        have := min_le_right row.consumption row.generation
        linarith
      split_ifs with hif
      · exact min_le_left _ _
      · exact hexc
    · unfold hfStepForceChargeSkipped
      dsimp only
      exact sub_min_eq_max_zero row.consumption row.generation

/-- Witness for C4 at a concrete non-force-charge input (empty mask): the
HistoricalForecast dispatch coincides with the import-minimiser dispatch. -/
theorem historical_forecast_lookahead_gate_witness :
    hfRunSingleTimeStep [] 0 c4Row 0 baseParams 0 10 1 false =
      runSingleTimeStep c4Row 0 { baseParams with strategy := .importMinimiser } 0 10 1 false :=
  (historical_forecast_lookahead_gate [] 0 c4Row 0 baseParams 0 10 1 false).1
    (fun h =>
      (by decide : ¬ (baseParams.forceChargeHours c4Row.timestamp.hour = true)) h.1)

/-- C1: the SoC bound is violated by the source. In the two-interval
export-maximiser run `c1Data` (admissible parameters: minSocPct 0 ≤
maxSocPct 100, roundtrip efficiency 1, so `efficiencySqrt = 1`), the first
interval fills the battery to 10 kWh and the second — a pre-charge hour with
10 kWh of demand — discharges the battery twice (step 2 and step 5a both use
`availableEnergyInBattery` computed from the interval's opening SoC), ending
at −10 kWh, far below `minSocKWh − FLOAT_TOLERANCE = −0.001`. -/
theorem soc_bound_violated_in_run :
    (runSimulationState c1Data c1Params 1).batterySoC = -10 ∧
    ((runSimulationState c1Data c1Params 1).detailedLog.map (fun en => en.batterySoC)) =
      [10, -10] ∧
    (-10 : ℚ) < c1Params.usableCapacity * (c1Params.minSoc / 100) - FLOAT_TOLERANCE ∧
    (1 : ℚ) ^ 2 = c1Params.roundtripEfficiency := by
  norm_num +decide [runSimulationState, simLoop, simStep, dispatchAccumulate, rolloverCheck,
    ensureMonth, updateMonth, lookupMonth, initialState, monthKey, Monthly.init,
    runSingleTimeStep, runStepParts, c1Data, c1Params, baseParams,
    isExportStrategy, isImportMinimiserStrategy, isForceChargeHour, isPreChargeHour,
    isHeatingSeason, HOURS_PER_INTERVAL, FLOAT_TOLERANCE, min_def, max_def, List.find?]

/-- C5, counterexample: with the usable-capacity percentage fixed at 100%,
sweeping the self-consumption strategy over battery sizes on `c5Data` (10 kWh
of excess solar then 10 kWh of demand) under an export tariff (10) richer
than the import tariff (1) makes the 10 kWh battery earn strictly less annual
savings than the 5 kWh battery: storing solar forfeits export revenue worth
more than the avoided import. -/
theorem size_sweep_savings_not_monotone :
    optimizationSavings c5Data c5Base 100 .selfConsumption 10 1 <
      optimizationSavings c5Data c5Base 100 .selfConsumption 5 1 := by
  norm_num +decide [optimizationSavings, optimizationParams, runSimulation,
    aggregateFinalResults, runSimulationState, simLoop, simStep, dispatchAccumulate,
    rolloverCheck, ensureMonth, updateMonth, lookupMonth, initialState, monthKey,
    Monthly.init, runSingleTimeStep, runStepParts, c5Data, c5Base, baseParams,
    isExportStrategy, isImportMinimiserStrategy, isForceChargeHour, isPreChargeHour,
    isHeatingSeason, HOURS_PER_INTERVAL, INTERVALS_PER_DAY, DAYS_IN_YEAR,
    FLOAT_TOLERANCE, min_def, max_def, List.find?]

/-- C5, amended: annual savings as a function of swept battery size is not
monotone in general; it is a per-tariff, per-dataset property. On the
concrete instance `c5GoodData` with import price 0.3 and export price 0.1
(export cheaper than efficiency-adjusted import), the self-consumption sweep
over the sizes 5, 10, 20 kWh is monotonically non-decreasing, with usable
capacity rescaled to the same (100%) percentage of each candidate size. -/
theorem size_sweep_savings_monotone_instance :
    optimizationSavings c5GoodData c5GoodBase 100 .selfConsumption 5 1 ≤
      optimizationSavings c5GoodData c5GoodBase 100 .selfConsumption 10 1 ∧
    optimizationSavings c5GoodData c5GoodBase 100 .selfConsumption 10 1 ≤
      optimizationSavings c5GoodData c5GoodBase 100 .selfConsumption 20 1 := by
  constructor <;>
    norm_num +decide [optimizationSavings, optimizationParams, runSimulation,
      aggregateFinalResults, runSimulationState, simLoop, simStep, dispatchAccumulate,
      rolloverCheck, ensureMonth, updateMonth, lookupMonth, initialState, monthKey,
      Monthly.init, runSingleTimeStep, runStepParts, c5GoodData, c5GoodBase, baseParams,
      isExportStrategy, isImportMinimiserStrategy, isForceChargeHour, isPreChargeHour,
      isHeatingSeason, HOURS_PER_INTERVAL, INTERVALS_PER_DAY, DAYS_IN_YEAR,
      FLOAT_TOLERANCE, min_def, max_def, List.find?]

end ClaimTheorems

end HomeBattery
